import Mathlib

/-!
Shallow embedding of `calc.rs` (keith-packard/calc.rs): a non-recursive,
table-driven LL(1) predictive parser and evaluator for infix arithmetic.

Modelling conventions:
* Numeric values (`f64` in the source) are modelled as `ℚ`; every
  arithmetic operation exercised by the verified properties is exact in
  both representations.
* The character source (`getc` reading stdin, returning `'\0'` on
  end-of-input) is modelled as a `List Char`; reading past the end
  yields `'\x00'`, exactly as the Rust `getc` does.
* Observable output is the list of non-trace print events: the lexer's
  `Invalid char` reports, the engine's `syntax error` report and its
  `result = v` lines.  The `TRACE` diagnostics print internal stack
  state only and are outside the program's I/O contract.
* The two `panic!` sites (`Values::pop` underflow, the `Push` action's
  `Invalid state`) are modelled as distinguished `panic` outcomes.
-/

namespace CalcRs

/-- Terminals of the grammar (`enum ETerminal` in `calc.rs`); `NUMBER`
carries the lexed numeric value. -/
inductive ETerminal where
  | OP
  | CP
  | NUMBER (val : ℚ)
  | PLUS
  | MINUS
  | TIMES
  | DIVIDE
  | NL
  | END
  deriving DecidableEq

/-- Non-terminals of the grammar (`enum ENonTerminal` in `calc.rs`). -/
inductive ENonTerminal where
  | Start
  | Expr
  | ExprP
  | Term
  | TermP
  | Fact
  | Line
  deriving DecidableEq

/-- Semantic actions (`enum EAction` in `calc.rs`). -/
inductive EAction where
  | Negate
  | Add
  | Subtract
  | Times
  | Divide
  | Push
  | Print
  deriving DecidableEq

/-- Grammar symbols (`enum Token` in `calc.rs`). -/
inductive Token where
  | Terminal (t : ETerminal)
  | NonTerminal (n : ENonTerminal)
  | Action (a : EAction)
  deriving DecidableEq

open ETerminal ENonTerminal EAction Token

/-- Discriminant of an `ETerminal` (Rust's `mem::discriminant`). -/
def discrTag : ETerminal → ℕ
  | OP => 0
  | CP => 1
  | NUMBER _ => 2
  | PLUS => 3
  | MINUS => 4
  | TIMES => 5
  | DIVIDE => 6
  | NL => 7
  | END => 8

/-- Terminal equality compares discriminants only, ignoring the numeric
payload (`impl PartialEq for ETerminal` in `calc.rs`). -/
def eTermEq (a b : ETerminal) : Bool := discrTag a == discrTag b

/-- The `Hash` impl for `ETerminal` feeds only `mem::discriminant` to the
hasher, so the hash of a terminal is a function of its discriminant. -/
def eTermHash (t : ETerminal) : ℕ := discrTag t

/-- Non-trace print events of the program, in emission order. -/
inductive OutEvent where
  | invalidChar (c : Char)
  | syntaxError
  | result (v : ℚ)
  deriving DecidableEq

/-- Read one character from the pending input, `'\x00'` when the stream
is exhausted (`getc` in `calc.rs`). -/
def getc : List Char → Char × List Char
  | [] => ('\x00', [])
  | c :: rest => (c, rest)

/-- The digit-accumulation inner loop of `lex`: starting from
accumulator `val` and current digit `c`, extend the number while digits
follow; returns the token without clearing the pending character (the
Rust code `return`s from inside the loop, keeping `*c` as lookahead). -/
def lexNum (val : ℚ) (c : Char) (input : List Char) :
    ETerminal × Char × List Char :=
  let val' := val * 10 + ((c.toNat - '0'.toNat : ℕ) : ℚ)
  match input with
  | [] => (NUMBER val', '\x00', [])
  | d :: rest =>
    if d.isDigit then lexNum val' d rest
    else (NUMBER val', d, rest)

/-- The scanning loop of `lex`, given the current character and the rest
of the input.  Returns the token, the pending character afterwards, the
remaining input and the print events emitted.  In the two `continue`
arms (whitespace skip, invalid-character skip) the recursive call on an
exhausted stream is inlined to its value `(END, '\x00', [], [])`, since
`getc` then returns `'\x00'` and the next iteration returns `END`. -/
def lexLoop (c : Char) (input : List Char) :
    ETerminal × Char × List Char × List OutEvent :=
  if c = ' ' ∨ c = '\t' then
    match input with
    | [] => (END, '\x00', [], [])
    | d :: rest => lexLoop d rest
  else if c = '\x00' then (END, '\x00', input, [])
  else if c = '\n' then (NL, '\x00', input, [])
  else if c.isDigit then
    let r := lexNum 0 c input
    (r.1, r.2.1, r.2.2, [])
  else if c = '+' then (PLUS, '\x00', input, [])
  else if c = '-' then (MINUS, '\x00', input, [])
  else if c = '*' then (TIMES, '\x00', input, [])
  else if c = '/' then (DIVIDE, '\x00', input, [])
  else if c = '(' then (OP, '\x00', input, [])
  else if c = ')' then (CP, '\x00', input, [])
  else
    match input with
    | [] => (END, '\x00', [], [OutEvent.invalidChar c])
    | d :: rest =>
      let r := lexLoop d rest
      (r.1, r.2.1, r.2.2.1, OutEvent.invalidChar c :: r.2.2.2)

/-- Read one token (`lex` in `calc.rs`): refill the pending character if
it is `'\x00'`, then run the scanning loop. -/
def lex (c : Char) (input : List Char) :
    ETerminal × Char × List Char × List OutEvent :=
  if c = '\x00' then
    let g := getc input
    lexLoop g.1 g.2
  else lexLoop c input

/-- The parse table of `main` in `calc.rs`, as the literal association
list the source builds its `HashMap` from (entries in source order). -/
def table : List ((ETerminal × ENonTerminal) × List Token) :=
  [ ((CP, ExprP), []),
    ((CP, TermP), []),
    ((DIVIDE, TermP), [Terminal DIVIDE, NonTerminal Fact, Action Divide, NonTerminal TermP]),
    ((END, Start), []),
    ((MINUS, Expr), [NonTerminal Term, NonTerminal ExprP]),
    ((MINUS, ExprP), [Terminal MINUS, NonTerminal Term, Action Subtract, NonTerminal ExprP]),
    ((MINUS, Fact), [Terminal MINUS, NonTerminal Fact, Action Negate]),
    ((MINUS, Line), [NonTerminal Expr, Action Print, Terminal NL]),
    ((MINUS, Start), [NonTerminal Line, NonTerminal Start]),
    ((MINUS, Term), [NonTerminal Fact, NonTerminal TermP]),
    ((MINUS, TermP), []),
    ((NL, ExprP), []),
    ((NL, Line), [Terminal NL]),
    ((NL, Start), [NonTerminal Line, NonTerminal Start]),
    ((NL, TermP), []),
    ((NUMBER 0, Expr), [NonTerminal Term, NonTerminal ExprP]),
    ((NUMBER 0, Fact), [Terminal (NUMBER 0), Action Push]),
    ((NUMBER 0, Line), [NonTerminal Expr, Action Print, Terminal NL]),
    ((NUMBER 0, Start), [NonTerminal Line, NonTerminal Start]),
    ((NUMBER 0, Term), [NonTerminal Fact, NonTerminal TermP]),
    ((OP, Expr), [NonTerminal Term, NonTerminal ExprP]),
    ((OP, Fact), [Terminal OP, NonTerminal Expr, Terminal CP]),
    ((OP, Line), [NonTerminal Expr, Action Print, Terminal NL]),
    ((OP, Start), [NonTerminal Line, NonTerminal Start]),
    ((OP, Term), [NonTerminal Fact, NonTerminal TermP]),
    ((PLUS, ExprP), [Terminal PLUS, NonTerminal Term, Action Add, NonTerminal ExprP]),
    ((PLUS, TermP), []),
    ((TIMES, TermP), [Terminal TIMES, NonTerminal Fact, Action Times, NonTerminal TermP]) ]

/-- `table.get(&(lexeme, non_terminal))`: hash-map lookup under the
discriminant-only terminal equality and derived non-terminal equality. -/
def tableGet (lexeme : ETerminal) (n : ENonTerminal) : Option (List Token) :=
  (table.find? fun e => eTermEq e.1.1 lexeme && e.1.2 == n).map (·.2)

/-- The mutable state of `main`'s driving loop: value stack, parse stack
(head = top), pending character `c`, remaining input, current lookahead
`lexeme`, previously matched terminal `prev_lexeme`, and the output
emitted so far. -/
structure EngState where
  values : List ℚ
  stack : List Token
  c : Char
  input : List Char
  lexeme : ETerminal
  prevLexeme : ETerminal
  out : List OutEvent
  deriving DecidableEq

/-- The two `panic!` sites of `calc.rs`: `Values::pop` on an empty value
stack (`Internal error`) and the `Push` action when the previously
matched terminal is not a `NUMBER` (`Invalid state`). -/
inductive PanicKind where
  | internalError
  | invalidState
  deriving DecidableEq

/-- Result of one iteration of `main`'s loop. -/
inductive StepRes where
  | cont (s : EngState)
  | exitSuccess (out : List OutEvent)
  | exitFailure (out : List OutEvent)
  | panic (k : PanicKind) (out : List OutEvent)
  deriving DecidableEq

/-- One iteration of `main`'s driving loop in `calc.rs`: pop the parse
stack; match a terminal against the lookahead (refilling it via `lex`),
expand a non-terminal through the table (pushing the production
right-to-left, so its first symbol lands on top), or execute an action
on the value stack.  An empty stack breaks the loop with success. -/
def step (s : EngState) : StepRes :=
  match s.stack with
  | [] => StepRes.exitSuccess s.out
  | tok :: rest =>
    match tok with
    | Terminal terminal =>
      if eTermEq terminal s.lexeme then
        let r := lex s.c s.input
        StepRes.cont { s with
          stack := rest
          prevLexeme := s.lexeme
          lexeme := r.1
          c := r.2.1
          input := r.2.2.1
          out := s.out ++ r.2.2.2 }
      else StepRes.exitFailure (s.out ++ [OutEvent.syntaxError])
    | NonTerminal n =>
      match tableGet s.lexeme n with
      | some prod => StepRes.cont { s with stack := prod ++ rest }
      | none => StepRes.exitFailure (s.out ++ [OutEvent.syntaxError])
    | Token.Action act =>
      match act with
      | EAction.Negate =>
        match s.values with
        | a :: vs => StepRes.cont { s with stack := rest, values := (-a) :: vs }
        | [] => StepRes.panic PanicKind.internalError s.out
      | EAction.Add =>
        match s.values with
        | b :: a :: vs => StepRes.cont { s with stack := rest, values := (a + b) :: vs }
        | _ => StepRes.panic PanicKind.internalError s.out
      | EAction.Subtract =>
        match s.values with
        | b :: a :: vs => StepRes.cont { s with stack := rest, values := (a - b) :: vs }
        | _ => StepRes.panic PanicKind.internalError s.out
      | EAction.Times =>
        match s.values with
        | b :: a :: vs => StepRes.cont { s with stack := rest, values := (a * b) :: vs }
        | _ => StepRes.panic PanicKind.internalError s.out
      | EAction.Divide =>
        match s.values with
        | b :: a :: vs => StepRes.cont { s with stack := rest, values := (a / b) :: vs }
        | _ => StepRes.panic PanicKind.internalError s.out
      | EAction.Push =>
        match s.prevLexeme with
        | NUMBER x => StepRes.cont { s with stack := rest, values := x :: s.values }
        | _ => StepRes.panic PanicKind.invalidState s.out
      | EAction.Print =>
        match s.values with
        | a :: vs =>
          StepRes.cont { s with
            stack := rest
            values := vs
            out := s.out ++ [OutEvent.result a] }
        | [] => StepRes.panic PanicKind.internalError s.out

/-- Final outcome of the driving loop: normal termination with exit
status success or failure, a panic, or fuel exhaustion. -/
inductive RunRes where
  | timeout
  | success (out : List OutEvent)
  | failure (out : List OutEvent)
  | panic (k : PanicKind) (out : List OutEvent)
  deriving DecidableEq

/-- Iterate `step` for at most `fuel` iterations. -/
def run : ℕ → EngState → RunRes
  | 0, _ => RunRes.timeout
  | fuel + 1, s =>
    match step s with
    | StepRes.cont s' => run fuel s'
    | StepRes.exitSuccess o => RunRes.success o
    | StepRes.exitFailure o => RunRes.failure o
    | StepRes.panic k o => RunRes.panic k o

/-- The state `main` sets up before entering its loop: empty value
stack, parse stack `[Start]`, pending character `'\x00'`, the first
token already lexed, and `prev_lexeme` initialized to `END`. -/
def initState (input : List Char) : EngState :=
  let r := lex '\x00' input
  { values := []
    stack := [NonTerminal Start]
    c := r.2.1
    input := r.2.2.1
    lexeme := r.1
    prevLexeme := END
    out := r.2.2.2 }

/-- Run the whole program on an input character stream. -/
def runCalc (fuel : ℕ) (input : List Char) : RunRes :=
  run fuel (initState input)

/-- Iterate `step` through `cont` results only, `none` once the loop
leaves its normal path; used to observe intermediate states. -/
def stepN : ℕ → EngState → Option EngState
  | 0, s => some s
  | k + 1, s =>
    match step s with
    | StepRes.cont s' => stepN k s'
    | _ => none

/-- Whether the top of the parse stack is a semantic action. -/
def headIsAction : List Token → Bool
  | Token.Action _ :: _ => true
  | _ => false

/-- Whether a terminal is a `NUMBER`. -/
def isNum : ETerminal → Bool
  | NUMBER _ => true
  | _ => false

/-- Whether a run ended in the `Values::pop` underflow panic. -/
def isInternalPanic : RunRes → Bool
  | RunRes.panic PanicKind.internalError _ => true
  | _ => false

/-- Whether a run ended in the `Push` action's `Invalid state` panic. -/
def isInvalidStatePanic : RunRes → Bool
  | RunRes.panic PanicKind.invalidState _ => true
  | _ => false

/-- Characters the lexer recognizes (whitespace, the end-of-input
sentinel, newline, digits and the six operator/parenthesis symbols). -/
def isRecognized (c : Char) : Bool :=
  c = ' ' || c = '\t' || c = '\x00' || c = '\n' || c.isDigit ||
    c = '+' || c = '-' || c = '*' || c = '/' || c = '(' || c = ')'

/-- Result of the `n`-th further call to `lex` after a given lexer
state (pending character, remaining input); index `0` is the next
call's result. -/
def lexIter : ℕ → Char → List Char → ETerminal × Char × List Char
  | 0, c, input => ((lex c input).1, (lex c input).2.1, (lex c input).2.2.1)
  | n + 1, c, input => lexIter n (lex c input).2.1 (lex c input).2.2.1

/-- Number of operands a symbol requires on the value stack before the
parser may process it (actions by their arity; `ExprP`/`TermP` fold a
pending left operand; terminals and the other non-terminals need none). -/
def needT : Token → ℤ
  | Terminal _ => 0
  | NonTerminal .Start => 0
  | NonTerminal .Expr => 0
  | NonTerminal .ExprP => 1
  | NonTerminal .Term => 0
  | NonTerminal .TermP => 1
  | NonTerminal .Fact => 0
  | NonTerminal .Line => 0
  | Token.Action .Negate => 1
  | Token.Action .Add => 2
  | Token.Action .Subtract => 2
  | Token.Action .Times => 2
  | Token.Action .Divide => 2
  | Token.Action .Push => 0
  | Token.Action .Print => 1

/-- Number of operands a symbol leaves on the value stack after the
required ones are consumed (`Expr`/`Term`/`Fact` produce one value,
`ExprP`/`TermP` return the folded value, `Print` consumes its operand). -/
def outT : Token → ℤ
  | Terminal _ => 0
  | NonTerminal .Start => 0
  | NonTerminal .Expr => 1
  | NonTerminal .ExprP => 1
  | NonTerminal .Term => 1
  | NonTerminal .TermP => 1
  | NonTerminal .Fact => 1
  | NonTerminal .Line => 0
  | Token.Action .Negate => 1
  | Token.Action .Add => 1
  | Token.Action .Subtract => 1
  | Token.Action .Times => 1
  | Token.Action .Divide => 1
  | Token.Action .Push => 1
  | Token.Action .Print => 0

/-- Balance invariant of the parse stack against the value-stack size:
processing the stack left-to-right, every symbol finds at least the
operands it needs. -/
def valOK : ℤ → List Token → Prop
  | _, [] => True
  | v, t :: rest => needT t ≤ v ∧ valOK (v - needT t + outT t) rest

/-- Invariant tying `Push` to the previously matched terminal: the flag
records whether the last matched terminal was a `NUMBER`; a `Push` on
the stack may only be processed while the flag is set, a matched
terminal resets the flag to its own kind, and a pending non-terminal
must be safe for any flag value. -/
def goodStack : Bool → List Token → Prop
  | _, [] => True
  | _, Terminal t :: rest => goodStack (isNum t) rest
  | _, NonTerminal _ :: rest => ∀ q, goodStack q rest
  | p, Token.Action a :: rest => (a = Push → p = true) ∧ goodStack p rest

/-- Unfolding `run` across one `cont` step of the driving loop. -/
theorem run_cont (n : ℕ) {s s' : EngState} (h : step s = StepRes.cont s') :
    run (n + 1) s = run n s' := by
  simp [run, h]

/-- Unfolding `run` at a terminating success step. -/
theorem run_done (n : ℕ) {s : EngState} {o : List OutEvent}
    (h : step s = StepRes.exitSuccess o) : run (n + 1) s = RunRes.success o := by
  simp [run, h]

/-- Tag-equal terminals agree on being a `NUMBER`. -/
theorem eTermEq_isNum {a b : ETerminal} (h : eTermEq a b = true) :
    isNum a = isNum b := by
  cases a <;> cases b <;> simp_all [eTermEq, discrTag, isNum]

/-- The digit loop always returns a `NUMBER` token. -/
theorem lexNum_num : ∀ (input : List Char) (val : ℚ) (c : Char),
    ∃ x c2 inp2, lexNum val c input = (NUMBER x, c2, inp2) := by
  intro input
  induction input with
  | nil => exact fun val c => ⟨_, _, _, rfl⟩
  | cons d rest ih =>
    intro val c
    by_cases hd : d.isDigit
    · simpa [lexNum, hd] using ih _ d
    · exact ⟨val * 10 + ((c.toNat - '0'.toNat : ℕ) : ℚ), d, rest, by simp [lexNum, hd]⟩

/-- Unfolding the scanning loop: whitespace at the end of the stream. -/
theorem lexLoop_eq_ws_nil {c : Char} (h : c = ' ' ∨ c = '\t') :
    lexLoop c [] = (END, '\x00', [], []) := by
  rcases h with rfl | rfl <;> rfl

/-- Unfolding the scanning loop at the `'\x00'` end-of-input sentinel. -/
theorem lexLoop_eq_nul (t : List Char) :
    lexLoop '\x00' t = (END, '\x00', t, []) := by
  rw [lexLoop.eq_def]; rfl

/-- Unfolding the scanning loop at a newline. -/
theorem lexLoop_eq_nl (t : List Char) :
    lexLoop '\n' t = (NL, '\x00', t, []) := by
  rw [lexLoop.eq_def]; rfl

/-- Unfolding the scanning loop at the six operator characters. -/
theorem lexLoop_eq_ops (t : List Char) :
    lexLoop '+' t = (PLUS, '\x00', t, []) ∧
    lexLoop '-' t = (MINUS, '\x00', t, []) ∧
    lexLoop '*' t = (TIMES, '\x00', t, []) ∧
    lexLoop '/' t = (DIVIDE, '\x00', t, []) ∧
    lexLoop '(' t = (OP, '\x00', t, []) ∧
    lexLoop ')' t = (CP, '\x00', t, []) := by
  refine ⟨?_, ?_, ?_, ?_, ?_, ?_⟩ <;> (rw [lexLoop.eq_def]; rfl)

/-- Unfolding the scanning loop: whitespace is skipped. -/
theorem lexLoop_eq_ws_cons {c : Char} (h : c = ' ' ∨ c = '\t')
    (d : Char) (rest : List Char) : lexLoop c (d :: rest) = lexLoop d rest := by
  rcases h with rfl | rfl <;> rfl

/-- Unfolding the scanning loop: a digit enters the number loop. -/
theorem lexLoop_eq_digit {c : Char} (h1 : ¬(c = ' ' ∨ c = '\t'))
    (h2 : ¬c = '\x00') (h3 : ¬c = '\n') (h4 : c.isDigit = true)
    (input : List Char) :
    lexLoop c input =
      ((lexNum 0 c input).1, (lexNum 0 c input).2.1, (lexNum 0 c input).2.2, []) := by
  conv_lhs => rw [lexLoop.eq_def]
  rw [if_neg h1, if_neg h2, if_neg h3, if_pos h4]

/-- Unfolding the scanning loop: an unrecognized character at the end
of the stream is reported, then the exhausted stream lexes to `END`. -/
theorem lexLoop_eq_invalid_nil {c : Char} (h1 : ¬(c = ' ' ∨ c = '\t'))
    (h2 : ¬c = '\x00') (h3 : ¬c = '\n') (h4 : ¬c.isDigit = true)
    (h5 : ¬c = '+') (h6 : ¬c = '-') (h7 : ¬c = '*') (h8 : ¬c = '/')
    (h9 : ¬c = '(') (h10 : ¬c = ')') :
    lexLoop c [] = (END, '\x00', [], [OutEvent.invalidChar c]) := by
  conv_lhs => rw [lexLoop.eq_def]
  rw [if_neg h1, if_neg h2, if_neg h3, if_neg h4, if_neg h5, if_neg h6,
    if_neg h7, if_neg h8, if_neg h9, if_neg h10]

/-- Unfolding the scanning loop: an unrecognized character is reported
and skipped, and scanning continues with the next character. -/
theorem lexLoop_eq_invalid_cons {c : Char} (h1 : ¬(c = ' ' ∨ c = '\t'))
    (h2 : ¬c = '\x00') (h3 : ¬c = '\n') (h4 : ¬c.isDigit = true)
    (h5 : ¬c = '+') (h6 : ¬c = '-') (h7 : ¬c = '*') (h8 : ¬c = '/')
    (h9 : ¬c = '(') (h10 : ¬c = ')') (d : Char) (rest : List Char) :
    lexLoop c (d :: rest) =
      ((lexLoop d rest).1, (lexLoop d rest).2.1, (lexLoop d rest).2.2.1,
        OutEvent.invalidChar c :: (lexLoop d rest).2.2.2) := by
  conv_lhs => rw [lexLoop.eq_def]
  rw [if_neg h1, if_neg h2, if_neg h3, if_neg h4, if_neg h5, if_neg h6,
    if_neg h7, if_neg h8, if_neg h9, if_neg h10]

/-- When the scanning loop returns `END`, the pending character it
leaves behind is the `'\x00'` sentinel. -/
theorem lexLoop_end_pending : ∀ (c : Char) (input : List Char),
    (lexLoop c input).1 = END → (lexLoop c input).2.1 = '\x00' := by
  intro c input
  induction c, input using lexLoop.induct with
  | case1 c h => rw [lexLoop_eq_ws_nil h]; intro _; rfl
  | case2 c h d rest ih => rw [lexLoop_eq_ws_cons h]; exact ih
  | case3 t _ => rw [lexLoop_eq_nul]; intro _; rfl
  | case4 t _ _ => rw [lexLoop_eq_nl]; simp
  | case5 t c h1 h2 h3 h4 =>
    rw [lexLoop_eq_digit h1 h2 h3 h4]
    obtain ⟨x, c2, i2, hx⟩ := lexNum_num t 0 c
    simp [hx]
  | case6 t => rw [(lexLoop_eq_ops t).1]; simp
  | case7 t => rw [(lexLoop_eq_ops t).2.1]; simp
  | case8 t => rw [(lexLoop_eq_ops t).2.2.1]; simp
  | case9 t => rw [(lexLoop_eq_ops t).2.2.2.1]; simp
  | case10 t => rw [(lexLoop_eq_ops t).2.2.2.2.1]; simp
  | case11 t => rw [(lexLoop_eq_ops t).2.2.2.2.2]; simp
  | case12 c h1 h2 h3 h4 h5 h6 h7 h8 h9 h10 =>
    rw [lexLoop_eq_invalid_nil h1 h2 h3 h4 h5 h6 h7 h8 h9 h10]
    intro _; rfl
  | case13 c h1 h2 h3 h4 h5 h6 h7 h8 h9 h10 d rest ih =>
    rw [lexLoop_eq_invalid_cons h1 h2 h3 h4 h5 h6 h7 h8 h9 h10]
    exact ih

/-- When `lex` returns `END`, the pending character is `'\x00'`. -/
theorem lex_end_pending {c : Char} {input : List Char}
    (h : (lex c input).1 = END) : (lex c input).2.1 = '\x00' := by
  unfold lex at h ⊢
  split_ifs at h ⊢ <;> exact lexLoop_end_pending _ _ h

/-- The scanning loop only ever reports invalid characters. -/
theorem lexLoop_msgs : ∀ (c : Char) (input : List Char) (e : OutEvent),
    e ∈ (lexLoop c input).2.2.2 → ∃ ch, e = OutEvent.invalidChar ch := by
  intro c input
  induction c, input using lexLoop.induct with
  | case1 c h => rw [lexLoop_eq_ws_nil h]; simp
  | case2 c h d rest ih => rw [lexLoop_eq_ws_cons h]; exact ih
  | case3 t _ => rw [lexLoop_eq_nul]; simp
  | case4 t _ _ => rw [lexLoop_eq_nl]; simp
  | case5 t c h1 h2 h3 h4 => rw [lexLoop_eq_digit h1 h2 h3 h4]; simp
  | case6 t => rw [(lexLoop_eq_ops t).1]; simp
  | case7 t => rw [(lexLoop_eq_ops t).2.1]; simp
  | case8 t => rw [(lexLoop_eq_ops t).2.2.1]; simp
  | case9 t => rw [(lexLoop_eq_ops t).2.2.2.1]; simp
  | case10 t => rw [(lexLoop_eq_ops t).2.2.2.2.1]; simp
  | case11 t => rw [(lexLoop_eq_ops t).2.2.2.2.2]; simp
  | case12 c h1 h2 h3 h4 h5 h6 h7 h8 h9 h10 =>
    rw [lexLoop_eq_invalid_nil h1 h2 h3 h4 h5 h6 h7 h8 h9 h10]
    intro e he
    simp only [List.mem_singleton] at he
    exact ⟨c, he⟩
  | case13 c h1 h2 h3 h4 h5 h6 h7 h8 h9 h10 d rest ih =>
    rw [lexLoop_eq_invalid_cons h1 h2 h3 h4 h5 h6 h7 h8 h9 h10]
    intro e he
    rcases List.mem_cons.mp he with he | he
    · exact ⟨c, he⟩
    · exact ih e he

/-- `lex` only ever reports invalid characters. -/
theorem lex_msgs {c : Char} {input : List Char} {e : OutEvent}
    (h : e ∈ (lex c input).2.2.2) : ∃ ch, e = OutEvent.invalidChar ch := by
  unfold lex at h
  split_ifs at h <;> exact lexLoop_msgs _ _ _ h

/-- A successful table lookup returns the production of some entry of
`table` whose key carries the looked-up non-terminal. -/
theorem tableGet_some_mem {l : ETerminal} {n : ENonTerminal} {r : List Token}
    (h : tableGet l n = some r) : ∃ t, ((t, n), r) ∈ table := by
  unfold tableGet at h
  cases hf : table.find? fun e => eTermEq e.1.1 l && e.1.2 == n with
  | none => rw [hf] at h; simp at h
  | some e =>
    obtain ⟨⟨t0, n0⟩, r0⟩ := e
    rw [hf] at h
    simp at h
    have hp := List.find?_some hf
    have hm := List.mem_of_find?_eq_some hf
    simp only [Bool.and_eq_true, beq_iff_eq] at hp
    subst h
    cases hp.2
    exact ⟨t0, hm⟩

/-- Every production of the grammar table transforms the value-stack
balance of the non-terminal it rewrites: with enough pending operands,
the production body is balanced and leaves the same net count. -/
theorem prod_valOK : ∀ e ∈ table, ∀ (v : ℤ) (rest : List Token),
    needT (NonTerminal e.1.2) ≤ v →
    valOK (v - needT (NonTerminal e.1.2) + outT (NonTerminal e.1.2)) rest →
    valOK v (e.2 ++ rest) := by
  intro e he
  simp only [table, List.mem_cons, List.not_mem_nil, or_false] at he
  rcases he with rfl|rfl|rfl|rfl|rfl|rfl|rfl|rfl|rfl|rfl|rfl|rfl|rfl|rfl|rfl|rfl|rfl|rfl|rfl|rfl|rfl|rfl|rfl|rfl|rfl|rfl|rfl|rfl <;>
    (intro v rest hv hrest
     try simp only [needT, outT] at hv
     try simp only [needT, outT] at hrest
     try simp only [valOK, needT, outT, List.cons_append, List.nil_append, List.append_eq]
     repeat' apply And.intro) <;>
    first
      | omega
      | (convert hrest using 1 <;> omega)
      | (convert hrest using 2 <;> omega)

/-- Every production of the grammar table preserves the `Push`-safety
invariant: if the remaining stack is safe for any flag value, the
production body followed by it is safe for any flag value. -/
theorem prod_good : ∀ e ∈ table, ∀ (p : Bool) (rest : List Token),
    (∀ q, goodStack q rest) → goodStack p (e.2 ++ rest) := by
  intro e he
  simp only [table, List.mem_cons, List.not_mem_nil, or_false] at he
  rcases he with rfl|rfl|rfl|rfl|rfl|rfl|rfl|rfl|rfl|rfl|rfl|rfl|rfl|rfl|rfl|rfl|rfl|rfl|rfl|rfl|rfl|rfl|rfl|rfl|rfl|rfl|rfl|rfl <;>
    (intro p rest h
     try simp only [goodStack, isNum, List.cons_append, List.nil_append]
     try simp
     intros
     repeat' apply And.intro) <;>
    first
      | exact h _
      | trivial

/-- Main induction for the value-stack safety claim: from any state
whose parse stack is balanced against its value-stack size, the driving
loop never reaches the `Values::pop` underflow panic. -/
theorem run_no_underflow : ∀ (fuel : ℕ) (s : EngState),
    valOK (s.values.length : ℤ) s.stack → isInternalPanic (run fuel s) = false := by
  intro fuel
  induction fuel with
  | zero => intro s _; rfl
  | succ n ih =>
    intro s hInv
    obtain ⟨vals, stk, c0, inp, lx, pv, op⟩ := s
    cases stk with
    | nil => simp [run, step, isInternalPanic]
    | cons tok rest =>
      cases tok with
      | Terminal t =>
        have hInv' : needT (Terminal t) ≤ (vals.length : ℤ) ∧
            valOK ((vals.length : ℤ) - needT (Terminal t) + outT (Terminal t)) rest := hInv
        by_cases hm : eTermEq t lx = true
        · simp only [run, step, hm, if_true]
          apply ih
          have h2 := hInv'.2
          simp only [needT, outT] at h2
          simpa using h2
        · simp [run, step, hm, isInternalPanic]
      | NonTerminal nt =>
        cases htg : tableGet lx nt with
        | none => simp [run, step, htg, isInternalPanic]
        | some r =>
          simp only [run, step, htg]
          apply ih
          obtain ⟨t0, hmem⟩ := tableGet_some_mem htg
          exact prod_valOK ((t0, nt), r) hmem _ rest hInv.1 hInv.2
      | Action a =>
        cases a with
        | Negate =>
          have h1 := hInv.1
          have h2 := hInv.2
          simp only [needT, outT] at h1 h2
          cases vals with
          | nil => simp at h1
          | cons v0 vs =>
            simp only [run, step]
            apply ih
            simp only [List.length_cons] at h2 ⊢
            convert h2 using 1
            
            all_goals omega
        | Add =>
          have h1 := hInv.1
          have h2 := hInv.2
          simp only [needT, outT] at h1 h2
          cases vals with
          | nil => simp at h1
          | cons v0 vs =>
            cases vs with
            | nil => simp at h1
            | cons v1 vs2 =>
              simp only [run, step]
              apply ih
              simp only [List.length_cons] at h2 ⊢
              convert h2 using 1
              
              all_goals omega
        | Subtract =>
          have h1 := hInv.1
          have h2 := hInv.2
          simp only [needT, outT] at h1 h2
          cases vals with
          | nil => simp at h1
          | cons v0 vs =>
            cases vs with
            | nil => simp at h1
            | cons v1 vs2 =>
              simp only [run, step]
              apply ih
              simp only [List.length_cons] at h2 ⊢
              convert h2 using 1
              
              all_goals omega
        | Times =>
          have h1 := hInv.1
          have h2 := hInv.2
          simp only [needT, outT] at h1 h2
          cases vals with
          | nil => simp at h1
          | cons v0 vs =>
            cases vs with
            | nil => simp at h1
            | cons v1 vs2 =>
              simp only [run, step]
              apply ih
              simp only [List.length_cons] at h2 ⊢
              convert h2 using 1
              
              all_goals omega
        | Divide =>
          have h1 := hInv.1
          have h2 := hInv.2
          simp only [needT, outT] at h1 h2
          cases vals with
          | nil => simp at h1
          | cons v0 vs =>
            cases vs with
            | nil => simp at h1
            | cons v1 vs2 =>
              simp only [run, step]
              apply ih
              simp only [List.length_cons] at h2 ⊢
              convert h2 using 1
              
              all_goals omega
        | Push =>
          have h2 := hInv.2
          simp only [needT, outT] at h2
          cases pv
          case NUMBER x =>
            simp only [run, step]
            apply ih
            simp only [List.length_cons]
            convert h2 using 1
            
            all_goals omega
          all_goals simp [run, step, isInternalPanic]
        | Print =>
          have h1 := hInv.1
          have h2 := hInv.2
          simp only [needT, outT] at h1 h2
          cases vals with
          | nil => simp at h1
          | cons v0 vs =>
            simp only [run, step]
            apply ih
            show valOK (vs.length : ℤ) rest
            simp only [List.length_cons] at h2
            convert h2 using 1
            all_goals omega

/-- Main induction for the `Push` safety claim: from any state whose
parse stack is `Push`-safe for the recorded kind of the previously
matched terminal, the driving loop never reaches the `Invalid state`
panic in the `Push` action. -/
theorem run_no_invalid : ∀ (fuel : ℕ) (s : EngState),
    goodStack (isNum s.prevLexeme) s.stack →
    isInvalidStatePanic (run fuel s) = false := by
  intro fuel
  induction fuel with
  | zero => intro s _; rfl
  | succ n ih =>
    intro s hInv
    obtain ⟨vals, stk, c0, inp, lx, pv, op⟩ := s
    cases stk with
    | nil => simp [run, step, isInvalidStatePanic]
    | cons tok rest =>
      cases tok with
      | Terminal t =>
        have hInv' : goodStack (isNum t) rest := hInv
        by_cases hm : eTermEq t lx = true
        · simp only [run, step, hm, if_true]
          apply ih
          have := eTermEq_isNum hm
          rw [← this]
          exact hInv'
        · simp [run, step, hm, isInvalidStatePanic]
      | NonTerminal nt =>
        have hInv' : ∀ q, goodStack q rest := hInv
        cases htg : tableGet lx nt with
        | none => simp [run, step, htg, isInvalidStatePanic]
        | some r =>
          simp only [run, step, htg]
          apply ih
          obtain ⟨t0, hmem⟩ := tableGet_some_mem htg
          exact prod_good ((t0, nt), r) hmem _ rest hInv'
      | Action a =>
        have hInv' : (a = Push → isNum pv = true) ∧ goodStack (isNum pv) rest := hInv
        cases a with
        | Negate =>
          cases vals with
          | nil => simp [run, step, isInvalidStatePanic]
          | cons v0 vs =>
            simp only [run, step]
            apply ih
            exact hInv'.2
        | Add =>
          cases vals with
          | nil => simp [run, step, isInvalidStatePanic]
          | cons v0 vs =>
            cases vs with
            | nil => simp [run, step, isInvalidStatePanic]
            | cons v1 vs2 =>
              simp only [run, step]
              apply ih
              exact hInv'.2
        | Subtract =>
          cases vals with
          | nil => simp [run, step, isInvalidStatePanic]
          | cons v0 vs =>
            cases vs with
            | nil => simp [run, step, isInvalidStatePanic]
            | cons v1 vs2 =>
              simp only [run, step]
              apply ih
              exact hInv'.2
        | Times =>
          cases vals with
          | nil => simp [run, step, isInvalidStatePanic]
          | cons v0 vs =>
            cases vs with
            | nil => simp [run, step, isInvalidStatePanic]
            | cons v1 vs2 =>
              simp only [run, step]
              apply ih
              exact hInv'.2
        | Divide =>
          cases vals with
          | nil => simp [run, step, isInvalidStatePanic]
          | cons v0 vs =>
            cases vs with
            | nil => simp [run, step, isInvalidStatePanic]
            | cons v1 vs2 =>
              simp only [run, step]
              apply ih
              exact hInv'.2
        | Push =>
          have hp : isNum pv = true := hInv'.1 rfl
          cases pv
          case NUMBER x =>
            simp only [run, step]
            apply ih
            exact hInv'.2
          all_goals simp [isNum] at hp
        | Print =>
          cases vals with
          | nil => simp [run, step, isInvalidStatePanic]
          | cons v0 vs =>
            simp only [run, step]
            apply ih
            exact hInv'.2

/-- C3: the engine prints `syntax error` and exits with a failure
status distinguishable from success exactly when a popped `Terminal`
fails to tag-match the lookahead or a (lookahead, non-terminal) pair is
missing from the table; a failing step ends the run immediately for any
remaining fuel, and no other step emits `syntax error` or exits with
failure. -/
theorem syntax_error_abort :
    (∀ s : EngState, (∃ o, step s = StepRes.exitFailure o) ↔
      ((∃ t rest, s.stack = Terminal t :: rest ∧ eTermEq t s.lexeme = false) ∨
       (∃ nt rest, s.stack = NonTerminal nt :: rest ∧ tableGet s.lexeme nt = none))) ∧
    (∀ s o, step s = StepRes.exitFailure o → o = s.out ++ [OutEvent.syntaxError]) ∧
    (∀ (fuel : ℕ) (s : EngState) (o : List OutEvent),
      step s = StepRes.exitFailure o → run (fuel + 1) s = RunRes.failure o) ∧
    (∀ s s', step s = StepRes.cont s' →
      (OutEvent.syntaxError ∈ s'.out ↔ OutEvent.syntaxError ∈ s.out)) ∧
    (∀ s o, step s = StepRes.exitSuccess o → o = s.out) ∧
    (∀ o o', RunRes.failure o ≠ RunRes.success o') := by
  refine ⟨?_, ?_, ?_, ?_, ?_, ?_⟩
  · intro s
    obtain ⟨vals, stk, c0, inp, lx, pv, op⟩ := s
    cases stk with
    | nil => simp [step]
    | cons tok rest =>
      cases tok with
      | Terminal t =>
        by_cases hm : eTermEq t lx = true
        · simp [step, hm]
        · rw [Bool.not_eq_true] at hm
          simp [step, hm]
      | NonTerminal nt =>
        cases htg : tableGet lx nt with
        | none => simp [step, htg]
        | some r => simp [step, htg]
      | Action a =>
        cases a
        case Push => cases pv <;> simp [step]
        all_goals rcases vals with _ | ⟨v0, _ | ⟨v1, vs⟩⟩ <;> simp [step]
  · intro s o h
    obtain ⟨vals, stk, c0, inp, lx, pv, op⟩ := s
    cases stk with
    | nil => simp [step] at h
    | cons tok rest =>
      cases tok with
      | Terminal t =>
        by_cases hm : eTermEq t lx = true
        · simp [step, hm] at h
        · rw [Bool.not_eq_true] at hm
          simp [step, hm] at h
          exact h.symm
      | NonTerminal nt =>
        cases htg : tableGet lx nt with
        | none =>
          simp [step, htg] at h
          exact h.symm
        | some r => simp [step, htg] at h
      | Action a =>
        cases a
        case Push => cases pv <;> simp [step] at h
        all_goals rcases vals with _ | ⟨v0, _ | ⟨v1, vs⟩⟩ <;> simp [step] at h
  · intro fuel s o h
    simp [run, h]
  · intro s s' h
    have hnolex : ∀ e ∈ (lex s.c s.input).2.2.2, e ≠ OutEvent.syntaxError := by
      intro e he
      obtain ⟨ch, rfl⟩ := lex_msgs he
      simp
    obtain ⟨vals, stk, c0, inp, lx, pv, op⟩ := s
    cases stk with
    | nil => simp [step] at h
    | cons tok rest =>
      cases tok with
      | Terminal t =>
        by_cases hm : eTermEq t lx = true
        · simp [step, hm] at h
          subst h
          simp only [List.mem_append]
          constructor
          · rintro (h | h)
            · exact h
            · exact absurd rfl (hnolex _ h)
          · intro h
            exact Or.inl h
        · rw [Bool.not_eq_true] at hm
          simp [step, hm] at h
      | NonTerminal nt =>
        cases htg : tableGet lx nt with
        | none => simp [step, htg] at h
        | some r =>
          simp [step, htg] at h
          subst h
          simp
      | Action a =>
        cases a
        case Push =>
          cases pv <;> simp [step] at h <;> subst h <;> simp
        case Print =>
          rcases vals with _ | ⟨v0, vs⟩ <;> simp [step] at h
          subst h
          simp
        all_goals
          rcases vals with _ | ⟨v0, _ | ⟨v1, vs⟩⟩ <;> simp [step] at h <;>
            subst h <;> simp
  · intro s o h
    obtain ⟨vals, stk, c0, inp, lx, pv, op⟩ := s
    cases stk with
    | nil =>
      simp [step] at h
      exact h.symm
    | cons tok rest =>
      cases tok with
      | Terminal t =>
        by_cases hm : eTermEq t lx = true
        · simp [step, hm] at h
        · rw [Bool.not_eq_true] at hm
          simp [step, hm] at h
      | NonTerminal nt =>
        cases htg : tableGet lx nt with
        | none => simp [step, htg] at h
        | some r => simp [step, htg] at h
      | Action a =>
        cases a
        case Push => cases pv <;> simp [step] at h
        all_goals rcases vals with _ | ⟨v0, _ | ⟨v1, vs⟩⟩ <;> simp [step] at h
  · intro o o' h
    cases h

/-- C3 witness: a concrete mismatching state (stack top `NL`, lookahead
`END`) is reported as a syntax error and ends the run with failure. -/
theorem syntax_error_abort_witness :
    step { values := [], stack := [Terminal NL], c := '\x00', input := [], lexeme := END, prevLexeme := END, out := [] }
      = StepRes.exitFailure [OutEvent.syntaxError] ∧
    run 5 { values := [], stack := [Terminal NL], c := '\x00', input := [], lexeme := END, prevLexeme := END, out := [] }
      = RunRes.failure [OutEvent.syntaxError] := by
  constructor
  · decide
  · exact syntax_error_abort.2.2.1 4 _ _ (by decide)

/-- C4 counterexample: the table does not have 27 distinct keys; it has
28 (the claim and spec miscount the enumerated pairs). -/
theorem table_key_count_not_27 :
    ¬ (table.map fun e => (discrTag e.1.1, e.1.2)).dedup.length = 27 := by
  decide

/-- C4 (amended): the grammar table holds exactly 28 distinct
(lookahead terminal tag, non-terminal) key pairs, and when a
non-terminal is popped, a lookup miss is exactly what produces the
`syntax error` failure. -/
theorem table_key_count_28 :
    (table.map fun e => (discrTag e.1.1, e.1.2)).Nodup ∧ table.length = 28 ∧
    (∀ (s : EngState) (nt : ENonTerminal) (rest : List Token),
      s.stack = NonTerminal nt :: rest →
      ((∃ o, step s = StepRes.exitFailure o) ↔ tableGet s.lexeme nt = none)) := by
  refine ⟨by decide, by decide, ?_⟩
  intro s nt rest hstk
  obtain ⟨vals, stk, c0, inp, lx, pv, op⟩ := s
  simp only at hstk
  subst hstk
  cases htg : tableGet lx nt with
  | none => simp [step, htg]
  | some r => simp [step, htg]

/-- C4 witness: with lookahead `PLUS` and pending `Start`, the lookup
misses and the step is exactly a syntax-error failure. -/
theorem table_key_count_28_witness :
    ((∃ o, step { values := [], stack := [NonTerminal Start], c := '\x00', input := [], lexeme := PLUS, prevLexeme := END, out := [] }
      = StepRes.exitFailure o) ↔ tableGet PLUS Start = none) :=
  table_key_count_28.2.2 _ Start [] rfl

/-- C5: the input consisting of a single newline terminates
successfully with no output at all (so no `result =` line), and no
intermediate state of that run ever has a non-empty value stack or an
action about to execute. -/
theorem empty_line_no_output :
    runCalc 10 ['\n'] = RunRes.success [] ∧
    ((List.range 10).all fun k =>
      match stepN k (initState ['\n']) with
      | some s' => s'.values.isEmpty && !headIsAction s'.stack
      | none => true) = true := by
  exact ⟨by decide, by decide⟩

/-- C6: when `lex` has returned `EndOfInput` with the stream exhausted,
every subsequent call returns `EndOfInput` again with unchanged lexer
state, and the engine run on pure end-of-input terminates successfully
with no output via the `Start → ε` production. -/
theorem end_of_input_idempotent :
    (∀ (c : Char) (input : List Char) (t : ETerminal) (c2 : Char)
        (inp2 : List Char) (msgs : List OutEvent),
      lex c input = (t, c2, inp2, msgs) → t = END → inp2 = [] →
      ∀ n, lexIter n c2 inp2 = (END, '\x00', [])) ∧
    runCalc 10 [] = RunRes.success [] := by
  constructor
  · intro c input t c2 inp2 msgs hlex ht hinp
    subst ht
    subst hinp
    have hc2 : c2 = '\x00' := by
      have h1 : (lex c input).1 = END := by rw [hlex]
      have h2 := lex_end_pending h1
      rw [hlex] at h2
      exact h2
    subst hc2
    intro n
    induction n with
    | zero => rfl
    | succ m ihm =>
      simp only [lexIter]
      rw [show lex '\x00' [] = (END, '\x00', [], []) from rfl]
      exact ihm
  · decide

/-- C6 witness: at the exhausted-stream lexer state, the next and every
further call yields `EndOfInput`. -/
theorem end_of_input_idempotent_witness :
    lex '\x00' [] = (END, '\x00', [], []) ∧ lexIter 3 '\x00' [] = (END, '\x00', []) :=
  ⟨rfl, end_of_input_idempotent.1 '\x00' [] END '\x00' [] [] rfl rfl rfl 3⟩

/-- C7: terminal equality and hashing depend only on the variant tag:
`NUMBER x` and `NUMBER y` compare equal and hash identically for all
payloads, a lookup with any `NUMBER` behaves like the canonical
`NUMBER 0` key, and in particular it hits the `(NUMBER, Fact)` entry. -/
theorem number_payload_irrelevant : ∀ x y : ℚ,
    eTermEq (NUMBER x) (NUMBER y) = true ∧
    eTermHash (NUMBER x) = eTermHash (NUMBER y) ∧
    (∀ nt, tableGet (NUMBER x) nt = tableGet (NUMBER 0) nt) ∧
    tableGet (NUMBER x) Fact = some [Terminal (NUMBER 0), Token.Action Push] := by
  intro x y
  refine ⟨rfl, rfl, ?_, rfl⟩
  intro nt
  cases nt <;> rfl

/-- C8: for every input and any amount of fuel, the run never ends in
the `Values::pop` underflow panic (`Internal error`): every action
finds at least as many operands as its arity requires. -/
theorem no_value_stack_underflow : ∀ (fuel : ℕ) (input : List Char),
    isInternalPanic (runCalc fuel input) = false := by
  intro fuel input
  apply run_no_underflow
  norm_num [initState, valOK, needT, outT]

/-- C9: an unrecognized character is reported and skipped, scanning
continues from the next character (the token stream is exactly that of
the remaining input), and the lexer only ever reports invalid
characters, never a syntax error or a result. -/
theorem lex_skips_invalid_char :
    (∀ (ch : Char) (input : List Char), isRecognized ch = false →
      lexLoop ch input =
        ((lexLoop (getc input).1 (getc input).2).1,
         (lexLoop (getc input).1 (getc input).2).2.1,
         (lexLoop (getc input).1 (getc input).2).2.2.1,
         OutEvent.invalidChar ch :: (lexLoop (getc input).1 (getc input).2).2.2.2)) ∧
    (∀ (c : Char) (input : List Char) (e : OutEvent),
      e ∈ (lexLoop c input).2.2.2 → ∃ ch, e = OutEvent.invalidChar ch) := by
  constructor
  · intro ch input hrec
    have hws : ¬(ch = ' ' ∨ ch = '\t') := by
      intro h
      rcases h with h | h <;> simp [isRecognized, h] at hrec
    have hnul : ¬ch = '\x00' := by intro h; simp [isRecognized, h] at hrec
    have hnl : ¬ch = '\n' := by intro h; simp [isRecognized, h] at hrec
    have hdig : ¬ch.isDigit = true := by intro h; simp [isRecognized, h] at hrec
    have h5 : ¬ch = '+' := by intro h; simp [isRecognized, h] at hrec
    have h6 : ¬ch = '-' := by intro h; simp [isRecognized, h] at hrec
    have h7 : ¬ch = '*' := by intro h; simp [isRecognized, h] at hrec
    have h8 : ¬ch = '/' := by intro h; simp [isRecognized, h] at hrec
    have h9 : ¬ch = '(' := by intro h; simp [isRecognized, h] at hrec
    have h10 : ¬ch = ')' := by intro h; simp [isRecognized, h] at hrec
    cases input with
    | nil =>
      rw [lexLoop_eq_invalid_nil hws hnul hnl hdig h5 h6 h7 h8 h9 h10]
      simp [getc, lexLoop_eq_nul]
    | cons d rest =>
      rw [lexLoop_eq_invalid_cons hws hnul hnl hdig h5 h6 h7 h8 h9 h10]
      simp [getc]
  · exact lexLoop_msgs

/-- C9 witness: the unrecognized `%` before a digit is reported and
skipped; the digit is still lexed as a number. -/
theorem lex_skips_invalid_char_witness :
    isRecognized '%' = false ∧
    lexLoop '%' ['1'] =
      ((lexLoop (getc ['1']).1 (getc ['1']).2).1,
       (lexLoop (getc ['1']).1 (getc ['1']).2).2.1,
       (lexLoop (getc ['1']).1 (getc ['1']).2).2.2.1,
       OutEvent.invalidChar '%' :: (lexLoop (getc ['1']).1 (getc ['1']).2).2.2.2) :=
  ⟨by decide, lex_skips_invalid_char.1 '%' ['1'] (by decide)⟩

/-- C10: for every input and any amount of fuel, the run never ends in
the `Push` action's `Invalid state` panic: whenever `Push` executes,
the previously matched terminal is a `NUMBER`. -/
theorem push_always_sees_number : ∀ (fuel : ℕ) (input : List Char),
    isInvalidStatePanic (runCalc fuel input) = false := by
  intro fuel input
  apply run_no_invalid
  simp [initState, goodStack]

/-- C1: on the input character stream `3 + 4 * 2` followed by a newline, the engine prints `result = 11`: multiplication binds tighter than addition. -/
theorem precedence_mul_over_add :
    runCalc 100 ("3 + 4 * 2\n".toList) = RunRes.success [OutEvent.result 11] := by
  have e0 : initState ("3 + 4 * 2\n".toList) = { values := [], stack := [NonTerminal Start], c := ' ', input := ['+', ' ', '4', ' ', '*', ' ', '2', '\n'], lexeme := NUMBER 3, prevLexeme := END, out := [] } := by with_unfolding_all rfl
  have h1 : step { values := [], stack := [NonTerminal Start], c := ' ', input := ['+', ' ', '4', ' ', '*', ' ', '2', '\n'], lexeme := NUMBER 3, prevLexeme := END, out := [] } = StepRes.cont { values := [], stack := [NonTerminal Line, NonTerminal Start], c := ' ', input := ['+', ' ', '4', ' ', '*', ' ', '2', '\n'], lexeme := NUMBER 3, prevLexeme := END, out := [] } := by with_unfolding_all rfl
  have h2 : step { values := [], stack := [NonTerminal Line, NonTerminal Start], c := ' ', input := ['+', ' ', '4', ' ', '*', ' ', '2', '\n'], lexeme := NUMBER 3, prevLexeme := END, out := [] } = StepRes.cont { values := [], stack := [NonTerminal Expr, Token.Action Print, Terminal NL, NonTerminal Start], c := ' ', input := ['+', ' ', '4', ' ', '*', ' ', '2', '\n'], lexeme := NUMBER 3, prevLexeme := END, out := [] } := by with_unfolding_all rfl
  have h3 : step { values := [], stack := [NonTerminal Expr, Token.Action Print, Terminal NL, NonTerminal Start], c := ' ', input := ['+', ' ', '4', ' ', '*', ' ', '2', '\n'], lexeme := NUMBER 3, prevLexeme := END, out := [] } = StepRes.cont { values := [], stack := [NonTerminal Term, NonTerminal ExprP, Token.Action Print, Terminal NL, NonTerminal Start], c := ' ', input := ['+', ' ', '4', ' ', '*', ' ', '2', '\n'], lexeme := NUMBER 3, prevLexeme := END, out := [] } := by with_unfolding_all rfl
  have h4 : step { values := [], stack := [NonTerminal Term, NonTerminal ExprP, Token.Action Print, Terminal NL, NonTerminal Start], c := ' ', input := ['+', ' ', '4', ' ', '*', ' ', '2', '\n'], lexeme := NUMBER 3, prevLexeme := END, out := [] } = StepRes.cont { values := [], stack := [NonTerminal Fact, NonTerminal TermP, NonTerminal ExprP, Token.Action Print, Terminal NL, NonTerminal Start], c := ' ', input := ['+', ' ', '4', ' ', '*', ' ', '2', '\n'], lexeme := NUMBER 3, prevLexeme := END, out := [] } := by with_unfolding_all rfl
  have h5 : step { values := [], stack := [NonTerminal Fact, NonTerminal TermP, NonTerminal ExprP, Token.Action Print, Terminal NL, NonTerminal Start], c := ' ', input := ['+', ' ', '4', ' ', '*', ' ', '2', '\n'], lexeme := NUMBER 3, prevLexeme := END, out := [] } = StepRes.cont { values := [], stack := [Terminal (NUMBER 0), Token.Action Push, NonTerminal TermP, NonTerminal ExprP, Token.Action Print, Terminal NL, NonTerminal Start], c := ' ', input := ['+', ' ', '4', ' ', '*', ' ', '2', '\n'], lexeme := NUMBER 3, prevLexeme := END, out := [] } := by with_unfolding_all rfl
  have h6 : step { values := [], stack := [Terminal (NUMBER 0), Token.Action Push, NonTerminal TermP, NonTerminal ExprP, Token.Action Print, Terminal NL, NonTerminal Start], c := ' ', input := ['+', ' ', '4', ' ', '*', ' ', '2', '\n'], lexeme := NUMBER 3, prevLexeme := END, out := [] } = StepRes.cont { values := [], stack := [Token.Action Push, NonTerminal TermP, NonTerminal ExprP, Token.Action Print, Terminal NL, NonTerminal Start], c := '\x00', input := [' ', '4', ' ', '*', ' ', '2', '\n'], lexeme := PLUS, prevLexeme := NUMBER 3, out := [] } := by with_unfolding_all rfl
  have h7 : step { values := [], stack := [Token.Action Push, NonTerminal TermP, NonTerminal ExprP, Token.Action Print, Terminal NL, NonTerminal Start], c := '\x00', input := [' ', '4', ' ', '*', ' ', '2', '\n'], lexeme := PLUS, prevLexeme := NUMBER 3, out := [] } = StepRes.cont { values := [3], stack := [NonTerminal TermP, NonTerminal ExprP, Token.Action Print, Terminal NL, NonTerminal Start], c := '\x00', input := [' ', '4', ' ', '*', ' ', '2', '\n'], lexeme := PLUS, prevLexeme := NUMBER 3, out := [] } := by with_unfolding_all rfl
  have h8 : step { values := [3], stack := [NonTerminal TermP, NonTerminal ExprP, Token.Action Print, Terminal NL, NonTerminal Start], c := '\x00', input := [' ', '4', ' ', '*', ' ', '2', '\n'], lexeme := PLUS, prevLexeme := NUMBER 3, out := [] } = StepRes.cont { values := [3], stack := [NonTerminal ExprP, Token.Action Print, Terminal NL, NonTerminal Start], c := '\x00', input := [' ', '4', ' ', '*', ' ', '2', '\n'], lexeme := PLUS, prevLexeme := NUMBER 3, out := [] } := by with_unfolding_all rfl
  have h9 : step { values := [3], stack := [NonTerminal ExprP, Token.Action Print, Terminal NL, NonTerminal Start], c := '\x00', input := [' ', '4', ' ', '*', ' ', '2', '\n'], lexeme := PLUS, prevLexeme := NUMBER 3, out := [] } = StepRes.cont { values := [3], stack := [Terminal PLUS, NonTerminal Term, Token.Action Add, NonTerminal ExprP, Token.Action Print, Terminal NL, NonTerminal Start], c := '\x00', input := [' ', '4', ' ', '*', ' ', '2', '\n'], lexeme := PLUS, prevLexeme := NUMBER 3, out := [] } := by with_unfolding_all rfl
  have h10 : step { values := [3], stack := [Terminal PLUS, NonTerminal Term, Token.Action Add, NonTerminal ExprP, Token.Action Print, Terminal NL, NonTerminal Start], c := '\x00', input := [' ', '4', ' ', '*', ' ', '2', '\n'], lexeme := PLUS, prevLexeme := NUMBER 3, out := [] } = StepRes.cont { values := [3], stack := [NonTerminal Term, Token.Action Add, NonTerminal ExprP, Token.Action Print, Terminal NL, NonTerminal Start], c := ' ', input := ['*', ' ', '2', '\n'], lexeme := NUMBER 4, prevLexeme := PLUS, out := [] } := by with_unfolding_all rfl
  have h11 : step { values := [3], stack := [NonTerminal Term, Token.Action Add, NonTerminal ExprP, Token.Action Print, Terminal NL, NonTerminal Start], c := ' ', input := ['*', ' ', '2', '\n'], lexeme := NUMBER 4, prevLexeme := PLUS, out := [] } = StepRes.cont { values := [3], stack := [NonTerminal Fact, NonTerminal TermP, Token.Action Add, NonTerminal ExprP, Token.Action Print, Terminal NL, NonTerminal Start], c := ' ', input := ['*', ' ', '2', '\n'], lexeme := NUMBER 4, prevLexeme := PLUS, out := [] } := by with_unfolding_all rfl
  have h12 : step { values := [3], stack := [NonTerminal Fact, NonTerminal TermP, Token.Action Add, NonTerminal ExprP, Token.Action Print, Terminal NL, NonTerminal Start], c := ' ', input := ['*', ' ', '2', '\n'], lexeme := NUMBER 4, prevLexeme := PLUS, out := [] } = StepRes.cont { values := [3], stack := [Terminal (NUMBER 0), Token.Action Push, NonTerminal TermP, Token.Action Add, NonTerminal ExprP, Token.Action Print, Terminal NL, NonTerminal Start], c := ' ', input := ['*', ' ', '2', '\n'], lexeme := NUMBER 4, prevLexeme := PLUS, out := [] } := by with_unfolding_all rfl
  have h13 : step { values := [3], stack := [Terminal (NUMBER 0), Token.Action Push, NonTerminal TermP, Token.Action Add, NonTerminal ExprP, Token.Action Print, Terminal NL, NonTerminal Start], c := ' ', input := ['*', ' ', '2', '\n'], lexeme := NUMBER 4, prevLexeme := PLUS, out := [] } = StepRes.cont { values := [3], stack := [Token.Action Push, NonTerminal TermP, Token.Action Add, NonTerminal ExprP, Token.Action Print, Terminal NL, NonTerminal Start], c := '\x00', input := [' ', '2', '\n'], lexeme := TIMES, prevLexeme := NUMBER 4, out := [] } := by with_unfolding_all rfl
  have h14 : step { values := [3], stack := [Token.Action Push, NonTerminal TermP, Token.Action Add, NonTerminal ExprP, Token.Action Print, Terminal NL, NonTerminal Start], c := '\x00', input := [' ', '2', '\n'], lexeme := TIMES, prevLexeme := NUMBER 4, out := [] } = StepRes.cont { values := [4, 3], stack := [NonTerminal TermP, Token.Action Add, NonTerminal ExprP, Token.Action Print, Terminal NL, NonTerminal Start], c := '\x00', input := [' ', '2', '\n'], lexeme := TIMES, prevLexeme := NUMBER 4, out := [] } := by with_unfolding_all rfl
  have h15 : step { values := [4, 3], stack := [NonTerminal TermP, Token.Action Add, NonTerminal ExprP, Token.Action Print, Terminal NL, NonTerminal Start], c := '\x00', input := [' ', '2', '\n'], lexeme := TIMES, prevLexeme := NUMBER 4, out := [] } = StepRes.cont { values := [4, 3], stack := [Terminal TIMES, NonTerminal Fact, Token.Action Times, NonTerminal TermP, Token.Action Add, NonTerminal ExprP, Token.Action Print, Terminal NL, NonTerminal Start], c := '\x00', input := [' ', '2', '\n'], lexeme := TIMES, prevLexeme := NUMBER 4, out := [] } := by with_unfolding_all rfl
  have h16 : step { values := [4, 3], stack := [Terminal TIMES, NonTerminal Fact, Token.Action Times, NonTerminal TermP, Token.Action Add, NonTerminal ExprP, Token.Action Print, Terminal NL, NonTerminal Start], c := '\x00', input := [' ', '2', '\n'], lexeme := TIMES, prevLexeme := NUMBER 4, out := [] } = StepRes.cont { values := [4, 3], stack := [NonTerminal Fact, Token.Action Times, NonTerminal TermP, Token.Action Add, NonTerminal ExprP, Token.Action Print, Terminal NL, NonTerminal Start], c := '\n', input := [], lexeme := NUMBER 2, prevLexeme := TIMES, out := [] } := by with_unfolding_all rfl
  have h17 : step { values := [4, 3], stack := [NonTerminal Fact, Token.Action Times, NonTerminal TermP, Token.Action Add, NonTerminal ExprP, Token.Action Print, Terminal NL, NonTerminal Start], c := '\n', input := [], lexeme := NUMBER 2, prevLexeme := TIMES, out := [] } = StepRes.cont { values := [4, 3], stack := [Terminal (NUMBER 0), Token.Action Push, Token.Action Times, NonTerminal TermP, Token.Action Add, NonTerminal ExprP, Token.Action Print, Terminal NL, NonTerminal Start], c := '\n', input := [], lexeme := NUMBER 2, prevLexeme := TIMES, out := [] } := by with_unfolding_all rfl
  have h18 : step { values := [4, 3], stack := [Terminal (NUMBER 0), Token.Action Push, Token.Action Times, NonTerminal TermP, Token.Action Add, NonTerminal ExprP, Token.Action Print, Terminal NL, NonTerminal Start], c := '\n', input := [], lexeme := NUMBER 2, prevLexeme := TIMES, out := [] } = StepRes.cont { values := [4, 3], stack := [Token.Action Push, Token.Action Times, NonTerminal TermP, Token.Action Add, NonTerminal ExprP, Token.Action Print, Terminal NL, NonTerminal Start], c := '\x00', input := [], lexeme := NL, prevLexeme := NUMBER 2, out := [] } := by with_unfolding_all rfl
  have h19 : step { values := [4, 3], stack := [Token.Action Push, Token.Action Times, NonTerminal TermP, Token.Action Add, NonTerminal ExprP, Token.Action Print, Terminal NL, NonTerminal Start], c := '\x00', input := [], lexeme := NL, prevLexeme := NUMBER 2, out := [] } = StepRes.cont { values := [2, 4, 3], stack := [Token.Action Times, NonTerminal TermP, Token.Action Add, NonTerminal ExprP, Token.Action Print, Terminal NL, NonTerminal Start], c := '\x00', input := [], lexeme := NL, prevLexeme := NUMBER 2, out := [] } := by with_unfolding_all rfl
  have h20 : step { values := [2, 4, 3], stack := [Token.Action Times, NonTerminal TermP, Token.Action Add, NonTerminal ExprP, Token.Action Print, Terminal NL, NonTerminal Start], c := '\x00', input := [], lexeme := NL, prevLexeme := NUMBER 2, out := [] } = StepRes.cont { values := [8, 3], stack := [NonTerminal TermP, Token.Action Add, NonTerminal ExprP, Token.Action Print, Terminal NL, NonTerminal Start], c := '\x00', input := [], lexeme := NL, prevLexeme := NUMBER 2, out := [] } := by with_unfolding_all rfl
  have h21 : step { values := [8, 3], stack := [NonTerminal TermP, Token.Action Add, NonTerminal ExprP, Token.Action Print, Terminal NL, NonTerminal Start], c := '\x00', input := [], lexeme := NL, prevLexeme := NUMBER 2, out := [] } = StepRes.cont { values := [8, 3], stack := [Token.Action Add, NonTerminal ExprP, Token.Action Print, Terminal NL, NonTerminal Start], c := '\x00', input := [], lexeme := NL, prevLexeme := NUMBER 2, out := [] } := by with_unfolding_all rfl
  have h22 : step { values := [8, 3], stack := [Token.Action Add, NonTerminal ExprP, Token.Action Print, Terminal NL, NonTerminal Start], c := '\x00', input := [], lexeme := NL, prevLexeme := NUMBER 2, out := [] } = StepRes.cont { values := [11], stack := [NonTerminal ExprP, Token.Action Print, Terminal NL, NonTerminal Start], c := '\x00', input := [], lexeme := NL, prevLexeme := NUMBER 2, out := [] } := by with_unfolding_all rfl
  have h23 : step { values := [11], stack := [NonTerminal ExprP, Token.Action Print, Terminal NL, NonTerminal Start], c := '\x00', input := [], lexeme := NL, prevLexeme := NUMBER 2, out := [] } = StepRes.cont { values := [11], stack := [Token.Action Print, Terminal NL, NonTerminal Start], c := '\x00', input := [], lexeme := NL, prevLexeme := NUMBER 2, out := [] } := by with_unfolding_all rfl
  have h24 : step { values := [11], stack := [Token.Action Print, Terminal NL, NonTerminal Start], c := '\x00', input := [], lexeme := NL, prevLexeme := NUMBER 2, out := [] } = StepRes.cont { values := [], stack := [Terminal NL, NonTerminal Start], c := '\x00', input := [], lexeme := NL, prevLexeme := NUMBER 2, out := [OutEvent.result 11] } := by with_unfolding_all rfl
  have h25 : step { values := [], stack := [Terminal NL, NonTerminal Start], c := '\x00', input := [], lexeme := NL, prevLexeme := NUMBER 2, out := [OutEvent.result 11] } = StepRes.cont { values := [], stack := [NonTerminal Start], c := '\x00', input := [], lexeme := END, prevLexeme := NL, out := [OutEvent.result 11] } := by with_unfolding_all rfl
  have h26 : step { values := [], stack := [NonTerminal Start], c := '\x00', input := [], lexeme := END, prevLexeme := NL, out := [OutEvent.result 11] } = StepRes.cont { values := [], stack := [], c := '\x00', input := [], lexeme := END, prevLexeme := NL, out := [OutEvent.result 11] } := by with_unfolding_all rfl
  have hF : step { values := [], stack := [], c := '\x00', input := [], lexeme := END, prevLexeme := NL, out := [OutEvent.result 11] } = StepRes.exitSuccess [OutEvent.result 11] := by with_unfolding_all rfl
  show run 100 (initState ("3 + 4 * 2\n".toList)) = RunRes.success [OutEvent.result 11]
  rw [e0]
  exact (run_cont 99 h1).trans ((run_cont 98 h2).trans ((run_cont 97 h3).trans ((run_cont 96 h4).trans ((run_cont 95 h5).trans ((run_cont 94 h6).trans ((run_cont 93 h7).trans ((run_cont 92 h8).trans ((run_cont 91 h9).trans ((run_cont 90 h10).trans ((run_cont 89 h11).trans ((run_cont 88 h12).trans ((run_cont 87 h13).trans ((run_cont 86 h14).trans ((run_cont 85 h15).trans ((run_cont 84 h16).trans ((run_cont 83 h17).trans ((run_cont 82 h18).trans ((run_cont 81 h19).trans ((run_cont 80 h20).trans ((run_cont 79 h21).trans ((run_cont 78 h22).trans ((run_cont 77 h23).trans ((run_cont 76 h24).trans ((run_cont 75 h25).trans ((run_cont 74 h26).trans (run_done 73 hF))))))))))))))))))))))))))

/-- C2: on the input `20 - 5 - 3` followed by a newline, the engine prints `result = 12`: subtraction associates left-to-right, because the table places the `Subtract` action between the matched operand (`Term`) and the recursive continuation (`ExprP`) of the right-recursive production. -/
theorem left_assoc_subtraction :
    runCalc 100 ("20 - 5 - 3\n".toList) = RunRes.success [OutEvent.result 12] ∧
    tableGet MINUS ExprP = some [Terminal MINUS, NonTerminal Term, Token.Action Subtract, NonTerminal ExprP] := by
  refine ⟨?_, rfl⟩
  have e0 : initState ("20 - 5 - 3\n".toList) = { values := [], stack := [NonTerminal Start], c := ' ', input := ['-', ' ', '5', ' ', '-', ' ', '3', '\n'], lexeme := NUMBER 20, prevLexeme := END, out := [] } := by with_unfolding_all rfl
  have h1 : step { values := [], stack := [NonTerminal Start], c := ' ', input := ['-', ' ', '5', ' ', '-', ' ', '3', '\n'], lexeme := NUMBER 20, prevLexeme := END, out := [] } = StepRes.cont { values := [], stack := [NonTerminal Line, NonTerminal Start], c := ' ', input := ['-', ' ', '5', ' ', '-', ' ', '3', '\n'], lexeme := NUMBER 20, prevLexeme := END, out := [] } := by with_unfolding_all rfl
  have h2 : step { values := [], stack := [NonTerminal Line, NonTerminal Start], c := ' ', input := ['-', ' ', '5', ' ', '-', ' ', '3', '\n'], lexeme := NUMBER 20, prevLexeme := END, out := [] } = StepRes.cont { values := [], stack := [NonTerminal Expr, Token.Action Print, Terminal NL, NonTerminal Start], c := ' ', input := ['-', ' ', '5', ' ', '-', ' ', '3', '\n'], lexeme := NUMBER 20, prevLexeme := END, out := [] } := by with_unfolding_all rfl
  have h3 : step { values := [], stack := [NonTerminal Expr, Token.Action Print, Terminal NL, NonTerminal Start], c := ' ', input := ['-', ' ', '5', ' ', '-', ' ', '3', '\n'], lexeme := NUMBER 20, prevLexeme := END, out := [] } = StepRes.cont { values := [], stack := [NonTerminal Term, NonTerminal ExprP, Token.Action Print, Terminal NL, NonTerminal Start], c := ' ', input := ['-', ' ', '5', ' ', '-', ' ', '3', '\n'], lexeme := NUMBER 20, prevLexeme := END, out := [] } := by with_unfolding_all rfl
  have h4 : step { values := [], stack := [NonTerminal Term, NonTerminal ExprP, Token.Action Print, Terminal NL, NonTerminal Start], c := ' ', input := ['-', ' ', '5', ' ', '-', ' ', '3', '\n'], lexeme := NUMBER 20, prevLexeme := END, out := [] } = StepRes.cont { values := [], stack := [NonTerminal Fact, NonTerminal TermP, NonTerminal ExprP, Token.Action Print, Terminal NL, NonTerminal Start], c := ' ', input := ['-', ' ', '5', ' ', '-', ' ', '3', '\n'], lexeme := NUMBER 20, prevLexeme := END, out := [] } := by with_unfolding_all rfl
  have h5 : step { values := [], stack := [NonTerminal Fact, NonTerminal TermP, NonTerminal ExprP, Token.Action Print, Terminal NL, NonTerminal Start], c := ' ', input := ['-', ' ', '5', ' ', '-', ' ', '3', '\n'], lexeme := NUMBER 20, prevLexeme := END, out := [] } = StepRes.cont { values := [], stack := [Terminal (NUMBER 0), Token.Action Push, NonTerminal TermP, NonTerminal ExprP, Token.Action Print, Terminal NL, NonTerminal Start], c := ' ', input := ['-', ' ', '5', ' ', '-', ' ', '3', '\n'], lexeme := NUMBER 20, prevLexeme := END, out := [] } := by with_unfolding_all rfl
  have h6 : step { values := [], stack := [Terminal (NUMBER 0), Token.Action Push, NonTerminal TermP, NonTerminal ExprP, Token.Action Print, Terminal NL, NonTerminal Start], c := ' ', input := ['-', ' ', '5', ' ', '-', ' ', '3', '\n'], lexeme := NUMBER 20, prevLexeme := END, out := [] } = StepRes.cont { values := [], stack := [Token.Action Push, NonTerminal TermP, NonTerminal ExprP, Token.Action Print, Terminal NL, NonTerminal Start], c := '\x00', input := [' ', '5', ' ', '-', ' ', '3', '\n'], lexeme := MINUS, prevLexeme := NUMBER 20, out := [] } := by with_unfolding_all rfl
  have h7 : step { values := [], stack := [Token.Action Push, NonTerminal TermP, NonTerminal ExprP, Token.Action Print, Terminal NL, NonTerminal Start], c := '\x00', input := [' ', '5', ' ', '-', ' ', '3', '\n'], lexeme := MINUS, prevLexeme := NUMBER 20, out := [] } = StepRes.cont { values := [20], stack := [NonTerminal TermP, NonTerminal ExprP, Token.Action Print, Terminal NL, NonTerminal Start], c := '\x00', input := [' ', '5', ' ', '-', ' ', '3', '\n'], lexeme := MINUS, prevLexeme := NUMBER 20, out := [] } := by with_unfolding_all rfl
  have h8 : step { values := [20], stack := [NonTerminal TermP, NonTerminal ExprP, Token.Action Print, Terminal NL, NonTerminal Start], c := '\x00', input := [' ', '5', ' ', '-', ' ', '3', '\n'], lexeme := MINUS, prevLexeme := NUMBER 20, out := [] } = StepRes.cont { values := [20], stack := [NonTerminal ExprP, Token.Action Print, Terminal NL, NonTerminal Start], c := '\x00', input := [' ', '5', ' ', '-', ' ', '3', '\n'], lexeme := MINUS, prevLexeme := NUMBER 20, out := [] } := by with_unfolding_all rfl
  have h9 : step { values := [20], stack := [NonTerminal ExprP, Token.Action Print, Terminal NL, NonTerminal Start], c := '\x00', input := [' ', '5', ' ', '-', ' ', '3', '\n'], lexeme := MINUS, prevLexeme := NUMBER 20, out := [] } = StepRes.cont { values := [20], stack := [Terminal MINUS, NonTerminal Term, Token.Action Subtract, NonTerminal ExprP, Token.Action Print, Terminal NL, NonTerminal Start], c := '\x00', input := [' ', '5', ' ', '-', ' ', '3', '\n'], lexeme := MINUS, prevLexeme := NUMBER 20, out := [] } := by with_unfolding_all rfl
  have h10 : step { values := [20], stack := [Terminal MINUS, NonTerminal Term, Token.Action Subtract, NonTerminal ExprP, Token.Action Print, Terminal NL, NonTerminal Start], c := '\x00', input := [' ', '5', ' ', '-', ' ', '3', '\n'], lexeme := MINUS, prevLexeme := NUMBER 20, out := [] } = StepRes.cont { values := [20], stack := [NonTerminal Term, Token.Action Subtract, NonTerminal ExprP, Token.Action Print, Terminal NL, NonTerminal Start], c := ' ', input := ['-', ' ', '3', '\n'], lexeme := NUMBER 5, prevLexeme := MINUS, out := [] } := by with_unfolding_all rfl
  have h11 : step { values := [20], stack := [NonTerminal Term, Token.Action Subtract, NonTerminal ExprP, Token.Action Print, Terminal NL, NonTerminal Start], c := ' ', input := ['-', ' ', '3', '\n'], lexeme := NUMBER 5, prevLexeme := MINUS, out := [] } = StepRes.cont { values := [20], stack := [NonTerminal Fact, NonTerminal TermP, Token.Action Subtract, NonTerminal ExprP, Token.Action Print, Terminal NL, NonTerminal Start], c := ' ', input := ['-', ' ', '3', '\n'], lexeme := NUMBER 5, prevLexeme := MINUS, out := [] } := by with_unfolding_all rfl
  have h12 : step { values := [20], stack := [NonTerminal Fact, NonTerminal TermP, Token.Action Subtract, NonTerminal ExprP, Token.Action Print, Terminal NL, NonTerminal Start], c := ' ', input := ['-', ' ', '3', '\n'], lexeme := NUMBER 5, prevLexeme := MINUS, out := [] } = StepRes.cont { values := [20], stack := [Terminal (NUMBER 0), Token.Action Push, NonTerminal TermP, Token.Action Subtract, NonTerminal ExprP, Token.Action Print, Terminal NL, NonTerminal Start], c := ' ', input := ['-', ' ', '3', '\n'], lexeme := NUMBER 5, prevLexeme := MINUS, out := [] } := by with_unfolding_all rfl
  have h13 : step { values := [20], stack := [Terminal (NUMBER 0), Token.Action Push, NonTerminal TermP, Token.Action Subtract, NonTerminal ExprP, Token.Action Print, Terminal NL, NonTerminal Start], c := ' ', input := ['-', ' ', '3', '\n'], lexeme := NUMBER 5, prevLexeme := MINUS, out := [] } = StepRes.cont { values := [20], stack := [Token.Action Push, NonTerminal TermP, Token.Action Subtract, NonTerminal ExprP, Token.Action Print, Terminal NL, NonTerminal Start], c := '\x00', input := [' ', '3', '\n'], lexeme := MINUS, prevLexeme := NUMBER 5, out := [] } := by with_unfolding_all rfl
  have h14 : step { values := [20], stack := [Token.Action Push, NonTerminal TermP, Token.Action Subtract, NonTerminal ExprP, Token.Action Print, Terminal NL, NonTerminal Start], c := '\x00', input := [' ', '3', '\n'], lexeme := MINUS, prevLexeme := NUMBER 5, out := [] } = StepRes.cont { values := [5, 20], stack := [NonTerminal TermP, Token.Action Subtract, NonTerminal ExprP, Token.Action Print, Terminal NL, NonTerminal Start], c := '\x00', input := [' ', '3', '\n'], lexeme := MINUS, prevLexeme := NUMBER 5, out := [] } := by with_unfolding_all rfl
  have h15 : step { values := [5, 20], stack := [NonTerminal TermP, Token.Action Subtract, NonTerminal ExprP, Token.Action Print, Terminal NL, NonTerminal Start], c := '\x00', input := [' ', '3', '\n'], lexeme := MINUS, prevLexeme := NUMBER 5, out := [] } = StepRes.cont { values := [5, 20], stack := [Token.Action Subtract, NonTerminal ExprP, Token.Action Print, Terminal NL, NonTerminal Start], c := '\x00', input := [' ', '3', '\n'], lexeme := MINUS, prevLexeme := NUMBER 5, out := [] } := by with_unfolding_all rfl
  have h16 : step { values := [5, 20], stack := [Token.Action Subtract, NonTerminal ExprP, Token.Action Print, Terminal NL, NonTerminal Start], c := '\x00', input := [' ', '3', '\n'], lexeme := MINUS, prevLexeme := NUMBER 5, out := [] } = StepRes.cont { values := [15], stack := [NonTerminal ExprP, Token.Action Print, Terminal NL, NonTerminal Start], c := '\x00', input := [' ', '3', '\n'], lexeme := MINUS, prevLexeme := NUMBER 5, out := [] } := by with_unfolding_all rfl
  have h17 : step { values := [15], stack := [NonTerminal ExprP, Token.Action Print, Terminal NL, NonTerminal Start], c := '\x00', input := [' ', '3', '\n'], lexeme := MINUS, prevLexeme := NUMBER 5, out := [] } = StepRes.cont { values := [15], stack := [Terminal MINUS, NonTerminal Term, Token.Action Subtract, NonTerminal ExprP, Token.Action Print, Terminal NL, NonTerminal Start], c := '\x00', input := [' ', '3', '\n'], lexeme := MINUS, prevLexeme := NUMBER 5, out := [] } := by with_unfolding_all rfl
  have h18 : step { values := [15], stack := [Terminal MINUS, NonTerminal Term, Token.Action Subtract, NonTerminal ExprP, Token.Action Print, Terminal NL, NonTerminal Start], c := '\x00', input := [' ', '3', '\n'], lexeme := MINUS, prevLexeme := NUMBER 5, out := [] } = StepRes.cont { values := [15], stack := [NonTerminal Term, Token.Action Subtract, NonTerminal ExprP, Token.Action Print, Terminal NL, NonTerminal Start], c := '\n', input := [], lexeme := NUMBER 3, prevLexeme := MINUS, out := [] } := by with_unfolding_all rfl
  have h19 : step { values := [15], stack := [NonTerminal Term, Token.Action Subtract, NonTerminal ExprP, Token.Action Print, Terminal NL, NonTerminal Start], c := '\n', input := [], lexeme := NUMBER 3, prevLexeme := MINUS, out := [] } = StepRes.cont { values := [15], stack := [NonTerminal Fact, NonTerminal TermP, Token.Action Subtract, NonTerminal ExprP, Token.Action Print, Terminal NL, NonTerminal Start], c := '\n', input := [], lexeme := NUMBER 3, prevLexeme := MINUS, out := [] } := by with_unfolding_all rfl
  have h20 : step { values := [15], stack := [NonTerminal Fact, NonTerminal TermP, Token.Action Subtract, NonTerminal ExprP, Token.Action Print, Terminal NL, NonTerminal Start], c := '\n', input := [], lexeme := NUMBER 3, prevLexeme := MINUS, out := [] } = StepRes.cont { values := [15], stack := [Terminal (NUMBER 0), Token.Action Push, NonTerminal TermP, Token.Action Subtract, NonTerminal ExprP, Token.Action Print, Terminal NL, NonTerminal Start], c := '\n', input := [], lexeme := NUMBER 3, prevLexeme := MINUS, out := [] } := by with_unfolding_all rfl
  have h21 : step { values := [15], stack := [Terminal (NUMBER 0), Token.Action Push, NonTerminal TermP, Token.Action Subtract, NonTerminal ExprP, Token.Action Print, Terminal NL, NonTerminal Start], c := '\n', input := [], lexeme := NUMBER 3, prevLexeme := MINUS, out := [] } = StepRes.cont { values := [15], stack := [Token.Action Push, NonTerminal TermP, Token.Action Subtract, NonTerminal ExprP, Token.Action Print, Terminal NL, NonTerminal Start], c := '\x00', input := [], lexeme := NL, prevLexeme := NUMBER 3, out := [] } := by with_unfolding_all rfl
  have h22 : step { values := [15], stack := [Token.Action Push, NonTerminal TermP, Token.Action Subtract, NonTerminal ExprP, Token.Action Print, Terminal NL, NonTerminal Start], c := '\x00', input := [], lexeme := NL, prevLexeme := NUMBER 3, out := [] } = StepRes.cont { values := [3, 15], stack := [NonTerminal TermP, Token.Action Subtract, NonTerminal ExprP, Token.Action Print, Terminal NL, NonTerminal Start], c := '\x00', input := [], lexeme := NL, prevLexeme := NUMBER 3, out := [] } := by with_unfolding_all rfl
  have h23 : step { values := [3, 15], stack := [NonTerminal TermP, Token.Action Subtract, NonTerminal ExprP, Token.Action Print, Terminal NL, NonTerminal Start], c := '\x00', input := [], lexeme := NL, prevLexeme := NUMBER 3, out := [] } = StepRes.cont { values := [3, 15], stack := [Token.Action Subtract, NonTerminal ExprP, Token.Action Print, Terminal NL, NonTerminal Start], c := '\x00', input := [], lexeme := NL, prevLexeme := NUMBER 3, out := [] } := by with_unfolding_all rfl
  have h24 : step { values := [3, 15], stack := [Token.Action Subtract, NonTerminal ExprP, Token.Action Print, Terminal NL, NonTerminal Start], c := '\x00', input := [], lexeme := NL, prevLexeme := NUMBER 3, out := [] } = StepRes.cont { values := [12], stack := [NonTerminal ExprP, Token.Action Print, Terminal NL, NonTerminal Start], c := '\x00', input := [], lexeme := NL, prevLexeme := NUMBER 3, out := [] } := by with_unfolding_all rfl
  have h25 : step { values := [12], stack := [NonTerminal ExprP, Token.Action Print, Terminal NL, NonTerminal Start], c := '\x00', input := [], lexeme := NL, prevLexeme := NUMBER 3, out := [] } = StepRes.cont { values := [12], stack := [Token.Action Print, Terminal NL, NonTerminal Start], c := '\x00', input := [], lexeme := NL, prevLexeme := NUMBER 3, out := [] } := by with_unfolding_all rfl
  have h26 : step { values := [12], stack := [Token.Action Print, Terminal NL, NonTerminal Start], c := '\x00', input := [], lexeme := NL, prevLexeme := NUMBER 3, out := [] } = StepRes.cont { values := [], stack := [Terminal NL, NonTerminal Start], c := '\x00', input := [], lexeme := NL, prevLexeme := NUMBER 3, out := [OutEvent.result 12] } := by with_unfolding_all rfl
  have h27 : step { values := [], stack := [Terminal NL, NonTerminal Start], c := '\x00', input := [], lexeme := NL, prevLexeme := NUMBER 3, out := [OutEvent.result 12] } = StepRes.cont { values := [], stack := [NonTerminal Start], c := '\x00', input := [], lexeme := END, prevLexeme := NL, out := [OutEvent.result 12] } := by with_unfolding_all rfl
  have h28 : step { values := [], stack := [NonTerminal Start], c := '\x00', input := [], lexeme := END, prevLexeme := NL, out := [OutEvent.result 12] } = StepRes.cont { values := [], stack := [], c := '\x00', input := [], lexeme := END, prevLexeme := NL, out := [OutEvent.result 12] } := by with_unfolding_all rfl
  have hF : step { values := [], stack := [], c := '\x00', input := [], lexeme := END, prevLexeme := NL, out := [OutEvent.result 12] } = StepRes.exitSuccess [OutEvent.result 12] := by with_unfolding_all rfl
  show run 100 (initState ("20 - 5 - 3\n".toList)) = RunRes.success [OutEvent.result 12]
  rw [e0]
  exact (run_cont 99 h1).trans ((run_cont 98 h2).trans ((run_cont 97 h3).trans ((run_cont 96 h4).trans ((run_cont 95 h5).trans ((run_cont 94 h6).trans ((run_cont 93 h7).trans ((run_cont 92 h8).trans ((run_cont 91 h9).trans ((run_cont 90 h10).trans ((run_cont 89 h11).trans ((run_cont 88 h12).trans ((run_cont 87 h13).trans ((run_cont 86 h14).trans ((run_cont 85 h15).trans ((run_cont 84 h16).trans ((run_cont 83 h17).trans ((run_cont 82 h18).trans ((run_cont 81 h19).trans ((run_cont 80 h20).trans ((run_cont 79 h21).trans ((run_cont 78 h22).trans ((run_cont 77 h23).trans ((run_cont 76 h24).trans ((run_cont 75 h25).trans ((run_cont 74 h26).trans ((run_cont 73 h27).trans ((run_cont 72 h28).trans (run_done 71 hF))))))))))))))))))))))))))))

end CalcRs
